import Mathlib

/-!
Verification of the PistonWindow frame-lifecycle coordinator and its
scripting bridge.

The development shallowly embeds the window coordinator of
`src/pistonwindow.rs` (wgpu backend), the coordinator of `src/prelude.rs`
(gfx backend, whose `event` function performs the post-render device
cleanup), and the scripting bridge of `src/piston_script.rs` (resource
tables, audio playback scheduling, the guarded `run` session).

External collaborators (the GPU surface, the audio engine decoder, the
font loader, `log10` on floats) are passed in as function parameters;
every effect the code performs on them is recorded explicitly (GPU
operation logs, play-call lists) so that the sequencing and no-op claims
become statements about those records.
-/

/-- Arguments of a render event: the draw size used as viewport. -/
structure RenderArgs where
  width : Nat
  height : Nat
  deriving DecidableEq, Repr

/-- Arguments of a resize event: the new draw size reported by the window. -/
structure ResizeArgs where
  drawWidth : Nat
  drawHeight : Nat
  deriving DecidableEq, Repr

/-- The event kinds dispatched by the piston event loop that the wrapper
inspects: render ticks, after-render ticks, resize notifications, update
ticks, input and idle events. -/
inductive Event where
  | render (args : RenderArgs)
  | afterRender
  | resize (args : ResizeArgs)
  | update
  | input
  | idle
  deriving DecidableEq, Repr

/-- `e.render_args()`: the render arguments when `e` is a render tick. -/
def Event.render_args : Event → Option RenderArgs
  | .render args => some args
  | _ => none

/-- `e.resize(...)`: the resize arguments when `e` is a resize event. -/
def Event.resize_args : Event → Option ResizeArgs
  | .resize args => some args
  | _ => none

/-- `e.after_render_args()`: present exactly on after-render events. -/
def Event.after_render_args : Event → Option Unit
  | .afterRender => some ()
  | _ => none

/-- Errors of `wgpu::Surface::get_current_texture`. -/
inductive SurfaceError where
  | lost
  | outdated
  deriving DecidableEq, Repr

/-- The width/height part of `wgpu::SurfaceConfiguration` (the fields the
wrapper rewrites on resize). -/
structure SurfaceConfiguration where
  width : Nat
  height : Nat
  deriving DecidableEq, Repr

/-- GPU operations the wgpu coordinator issues, recorded in order. -/
inductive GpuOp where
  | acquire
  | renderCall
  | submit
  | present
  | configure (width height : Nat)
  deriving DecidableEq, Repr

/-- The operation sequence of one successful `draw_2d` render-tick body
(`src/pistonwindow.rs` lines 136-149): acquire the surface texture, run
the renderer, submit the command buffer, present. -/
def renderOps : List GpuOp := [GpuOp.acquire, GpuOp.renderCall, GpuOp.submit, GpuOp.present]

/-- The wgpu `PistonWindow` (`src/pistonwindow.rs`): window draw size, the
surface configuration, the result the surface would give for
`get_current_texture`, the count of renderer (`g2d.draw`) invocations and
the log of GPU operations issued so far. -/
structure PistonWindow where
  drawWidth : Nat
  drawHeight : Nat
  surface_config : SurfaceConfiguration
  currentTexture : Except SurfaceError Unit
  rendererCalls : Nat
  gpuLog : List GpuOp
  deriving Repr

/-- Outcome of `draw_2d`: `noRender` models Rust's `None` return on
non-render events, `ok u` models `Some(u)`, and `panicked` models the
panic raised by `get_current_texture().unwrap()` on a surface error. -/
inductive DrawResult (U : Type) where
  | noRender
  | ok (u : U)
  | panicked
  deriving DecidableEq, Repr

/-- `PistonWindow::draw_2d` (`src/pistonwindow.rs` lines 131-153): on a
render tick, acquire the surface texture (panicking via `unwrap` when the
surface errors), run the render closure, submit, present and return the
closure's result; on any other event return `None` untouched. -/
def PistonWindow.draw_2d {U : Type} (w : PistonWindow) (e : Event)
    (f : RenderArgs → U) : DrawResult U × PistonWindow :=
  match e.render_args with
  | some args =>
    match w.currentTexture with
    | Except.ok _ =>
      (DrawResult.ok (f args),
        { w with
            rendererCalls := w.rendererCalls + 1,
            gpuLog := w.gpuLog ++ renderOps })
    | Except.error _ => (DrawResult.panicked, w)
  | none => (DrawResult.noRender, w)

/-- `PistonWindow::draw_3d` (`src/pistonwindow.rs` lines 159-165): on a
render tick hand the whole coordinator to the closure and return its
result; otherwise return `None` untouched. -/
def PistonWindow.draw_3d {U : Type} (w : PistonWindow) (e : Event)
    (f : PistonWindow → U × PistonWindow) : Option U × PistonWindow :=
  match e.render_args with
  | some _ =>
    let r := f w
    (some r.1, r.2)
  | none => (none, w)

/-- `PistonWindow::event` (`src/pistonwindow.rs` lines 169-183): on a
resize event rewrite the surface configuration's width and height to the
event's draw size and reconfigure the surface; otherwise do nothing. -/
def PistonWindow.event (w : PistonWindow) (e : Event) : PistonWindow :=
  match e.resize_args with
  | some args =>
    { w with
        surface_config := { width := args.drawWidth, height := args.drawHeight },
        gpuLog := w.gpuLog ++ [GpuOp.configure args.drawWidth args.drawHeight] }
  | none => w

/-- `<PistonWindow as Iterator>::next` (`src/pistonwindow.rs` lines
270-277): ask the ticker for an event (passed in here), let the window
handle it, then hand it to the caller. -/
def PistonWindow.next (w : PistonWindow) (ticker : Option Event) :
    Option Event × PistonWindow :=
  match ticker with
  | some e => (some e, w.event e)
  | none => (none, w)

/-- The gfx `PistonWindow` of `src/prelude.rs`: window draw size, the
dimensions of the main render targets and the count of
`device.cleanup()` calls issued so far. -/
structure GfxWindow where
  drawWidth : Nat
  drawHeight : Nat
  outputWidth : Nat
  outputHeight : Nat
  cleanups : Nat
  deriving DecidableEq, Repr

/-- `PistonWindow::event` (`src/prelude.rs` lines 235-259): on an
after-render event run `device.cleanup()`; then, for every event, if the
render-target dimensions differ from the window draw size, recreate the
main targets at the draw size. -/
def GfxWindow.event (w : GfxWindow) (e : Event) : GfxWindow :=
  let w1 :=
    match e.after_render_args with
    | some _ => { w with cleanups := w.cleanups + 1 }
    | none => w
  if w1.outputWidth ≠ w1.drawWidth ∨ w1.outputHeight ≠ w1.drawHeight then
    { w1 with outputWidth := w1.drawWidth, outputHeight := w1.drawHeight }
  else w1

/-- `<PistonWindow as Iterator>::next` (`src/prelude.rs` lines 355-362):
processes the ticker's event through `event` before returning it. -/
def GfxWindow.next (w : GfxWindow) (ticker : Option Event) :
    Option Event × GfxWindow :=
  match ticker with
  | some e => (some e, w.event e)
  | none => (none, w)

/-- Lookup in an association list keyed by name, mirroring
`HashMap::get`. -/
def lookupKey {α : Type} (m : List (String × α)) (k : String) : Option α :=
  match m with
  | [] => none
  | p :: rest => if k = p.1 then some p.2 else lookupKey rest k

/-- `HashMap::insert`: replace the value when the key is present,
otherwise add a new binding. -/
def hashInsert {α : Type} (m : List (String × α)) (k : String) (v : α) :
    List (String × α) :=
  if (lookupKey m k).isSome then
    m.map fun p => (p.1, if p.1 = k then v else p.2)
  else m ++ [(k, v)]

/-- Decoded static sound data (`kira::StaticSoundData`): all the wrapper
reads from it is its duration, measured here in abstract time units. -/
structure SoundData where
  duration : Nat
  deriving DecidableEq, Repr

/-- One entry of the sound table: source path and the lazily cached
decoded data. -/
structure SoundEntry where
  file : String
  data : Option SoundData
  deriving DecidableEq, Repr

/-- The sound table `Sounds = HashMap<name, (path, Option<data>)>`. -/
abbrev Sounds := List (String × SoundEntry)

/-- A streaming music handle; the wrapper only ever sets its loop region. -/
structure StreamHandle where
  looping : Bool
  deriving DecidableEq, Repr

/-- One entry of the music table: source path and the cached streaming
handle. -/
structure MusicEntry where
  file : String
  handle : Option StreamHandle
  deriving DecidableEq, Repr

/-- The music table `Music = HashMap<name, (path, Option<handle>)>`. -/
abbrev Music := List (String × MusicEntry)

/-- `kira::Decibels`: either the distinguished `SILENCE` value or a
decibel amount. -/
inductive Decibels where
  | silence
  | db (value : ℚ)
  deriving DecidableEq, Repr

/-- `amplitude_to_decibels` (`src/piston_script.rs` lines 412-415):
amplitudes at or below zero clamp to `SILENCE`; positive amplitudes map
to `20 * log10(amplitude)`. The float `log10` is an external collaborator
passed in as a function. -/
def amplitude_to_decibels (log10 : ℚ → ℚ) (amplitude : ℚ) : Decibels :=
  if amplitude ≤ 0 then Decibels.silence
  else Decibels.db (20 * log10 amplitude)

/-- One play call issued to the audio track: the scheduled start offset
(0 = immediate, otherwise set through pause + delayed resume), whether
the loop region was set to the whole sound, and the volume. -/
structure PlayCall where
  startOffset : Nat
  loopWhole : Bool
  volume : Decibels
  deriving DecidableEq, Repr

/-- The pre-scheduling loop of `play_sound` (`src/piston_script.rs` lines
398-407): `start` begins at the duration and grows by the duration per
scheduled instance; one instance is scheduled per remaining repeat. -/
def scheduleRepeats (vol : Decibels) (d : Nat) : Nat → Nat → List PlayCall
  | 0, _ => []
  | count + 1, start =>
    { startOffset := start, loopWhole := false, volume := vol } ::
      scheduleRepeats vol d count (start + d)

/-- Cache the decoded data of the named sound (`*sound_data = Some(data)`
through `get_mut`). -/
def setSoundData (m : Sounds) (name : String) (d : SoundData) : Sounds :=
  m.map fun p => (p.1, if p.1 = name then { p.2 with data := some d } else p.2)

/-- Store or mutate the cached streaming handle of the named music entry. -/
def setMusicHandle (m : Music) (name : String) (h : StreamHandle) : Music :=
  m.map fun p => (p.1, if p.1 = name then { p.2 with handle := some h } else p.2)

/-- The sound data `play_sound` plays for an entry: the cached data when
present, otherwise the data decoded from the entry's file. -/
def soundDataOf (fromFile : String → SoundData) (entry : SoundEntry) : SoundData :=
  match entry.data with
  | some d => d
  | none => fromFile entry.file

/-- `bind_sound__name_file` (`src/piston_script.rs` lines 352-356):
register a lazily loaded sound under a name via `HashMap::insert`. -/
def bind_sound__name_file (sounds : Sounds) (name file : String) : Sounds :=
  hashInsert sounds name { file := file, data := none }

/-- `bind_music__name_file` (`src/piston_script.rs` lines 358-362):
register a lazily loaded music source under a name via
`HashMap::insert`. -/
def bind_music__name_file (music : Music) (name file : String) : Music :=
  hashInsert music name { file := file, handle := none }

/-- `play_sound__name_repeat_volume` (`src/piston_script.rs` lines
364-410). Returns the updated sound table and the list of play calls
issued to the main track, in order. An unbound name does nothing.
`repeat == -1` plays once with the loop region set to the whole sound
(caching the decoded data on first use); `repeat == 0` falls through both
branches and plays nothing; any other repeat plays once immediately, then
pre-schedules the remaining `repeat - 1` instances at offsets growing by
the sound's duration. -/
def play_sound__name_repeat_volume (fromFile : String → SoundData)
    (log10 : ℚ → ℚ) (sounds : Sounds) (name : String) (rpt : Int)
    (volume : ℚ) : Sounds × List PlayCall :=
  let vol := amplitude_to_decibels log10 volume
  match lookupKey sounds name with
  | none => (sounds, [])
  | some entry =>
    if rpt = -1 then
      match entry.data with
      | some _ =>
        (sounds, [{ startOffset := 0, loopWhole := true, volume := vol }])
      | none =>
        let d := fromFile entry.file
        (setSoundData sounds name d,
          [{ startOffset := 0, loopWhole := true, volume := vol }])
    else if rpt ≠ 0 then
      let loaded : Sounds × SoundData :=
        match entry.data with
        | some d => (sounds, d)
        | none =>
          let d := fromFile entry.file
          (setSoundData sounds name d, d)
      let duration := loaded.2.duration
      (loaded.1,
        { startOffset := 0, loopWhole := false, volume := vol } ::
          scheduleRepeats vol duration (rpt.toNat - 1) duration)
    else (sounds, [])

/-- `play_sound_forever__name_volume` (`src/piston_script.rs` lines
417-437): play once with the loop region set to the whole sound, caching
the decoded data on first use; unbound names do nothing. -/
def play_sound_forever__name_volume (fromFile : String → SoundData)
    (log10 : ℚ → ℚ) (sounds : Sounds) (name : String) (volume : ℚ) :
    Sounds × List PlayCall :=
  let vol := amplitude_to_decibels log10 volume
  match lookupKey sounds name with
  | none => (sounds, [])
  | some entry =>
    match entry.data with
    | some _ =>
      (sounds, [{ startOffset := 0, loopWhole := true, volume := vol }])
    | none =>
      let d := fromFile entry.file
      (setSoundData sounds name d,
        [{ startOffset := 0, loopWhole := true, volume := vol }])

/-- One call issued to the music track: a play (with start offset and
whether the whole-sound loop region was set) or a resume of the cached
looped handle. -/
inductive MusicCall where
  | play (startOffset : Nat) (loopWhole : Bool)
  | resumeLooped
  deriving DecidableEq, Repr

/-- The pre-scheduling loop of `play_music` (`src/piston_script.rs` lines
468-476): a fresh stream is created and scheduled per remaining repeat. -/
def scheduleMusicRepeats (d : Nat) : Nat → Nat → List MusicCall
  | 0, _ => []
  | count + 1, start =>
    MusicCall.play start false :: scheduleMusicRepeats d count (start + d)

/-- `play_music__name_repeat` (`src/piston_script.rs` lines 439-479).
Unbound names do nothing. `repeat == -1` either re-loops and resumes the
cached handle or starts a looped stream, caching its handle;
`repeat == 0` plays nothing; any other repeat starts a fresh stream,
caches its handle, and pre-schedules the remaining repeats at offsets
growing by the stream's duration. -/
def play_music__name_repeat (fromFileDuration : String → Nat)
    (music : Music) (name : String) (rpt : Int) : Music × List MusicCall :=
  match lookupKey music name with
  | none => (music, [])
  | some entry =>
    if rpt = -1 then
      match entry.handle with
      | some _ =>
        (setMusicHandle music name { looping := true }, [MusicCall.resumeLooped])
      | none =>
        (setMusicHandle music name { looping := true }, [MusicCall.play 0 true])
    else if rpt ≠ 0 then
      let d := fromFileDuration entry.file
      (setMusicHandle music name { looping := false },
        MusicCall.play 0 false :: scheduleMusicRepeats d (rpt.toNat - 1) d)
    else (music, [])

/-- `play_music_forever__name` (`src/piston_script.rs` lines 481-501):
re-loop and resume the cached handle, or start a looped stream and cache
its handle; unbound names do nothing. -/
def play_music_forever__name (_fromFileDuration : String → Nat)
    (music : Music) (name : String) : Music × List MusicCall :=
  match lookupKey music name with
  | none => (music, [])
  | some entry =>
    match entry.handle with
    | some _ =>
      (setMusicHandle music name { looping := true }, [MusicCall.resumeLooped])
    | none =>
      (setMusicHandle music name { looping := true }, [MusicCall.play 0 true])

/-- The scripting session's resource tables: decoded images, GPU texture
handles, glyph caches, font names, sounds and music (images and textures
are opaque handles here; glyph caches are identified by their font
file). -/
structure Session where
  images : List Nat
  textures : List Nat
  glyphs : List String
  fontNames : List String
  sounds : Sounds
  music : Music
  deriving DecidableEq, Repr

/-- `create_texture` (`src/piston_script.rs` lines 247-275), image-id
variant: out-of-bounds image ids and texture-creation failures produce
descriptive errors and leave the tables alone; success appends the new
texture and returns its index. -/
def create_texture (mkTexture : Nat → Option Nat) (s : Session)
    (imageId : Nat) : Session × Except String Nat :=
  match s.images.get? imageId with
  | none => (s, Except.error ("Image id is out of bounds"))
  | some img =>
    match mkTexture img with
    | none => (s, Except.error ("Could not create texture"))
    | some t =>
      ({ s with textures := s.textures ++ [t] }, Except.ok s.textures.length)

/-- `update__texture_image` (`src/piston_script.rs` lines 278-337),
id/id variant: bounds-check both ids; the update writes the image into
the existing GPU texture, leaving the tables themselves unchanged. -/
def update__texture_image (s : Session) (textureId imageId : Nat) :
    Session × Except String Unit :=
  match s.images.get? imageId with
  | none => (s, Except.error ("Image id is out of bounds"))
  | some _ =>
    match s.textures.get? textureId with
    | none => (s, Except.error ("Texture id is out of bounds"))
    | some _ => (s, Except.ok ())

/-- `load_font` (`src/piston_script.rs` lines 187-210): on successful
load append a glyph cache and the font name and return the new index;
on failure return the loader's error and change nothing. -/
def load_font (fontLoads : String → Bool) (s : Session) (file : String) :
    Session × Except String Nat :=
  if fontLoads file then
    ({ s with
        glyphs := s.glyphs ++ [file],
        fontNames := s.fontNames ++ [file] },
      Except.ok s.glyphs.length)
  else (s, Except.error ("could not load font"))

/-- The external collaborators of the scripting bridge: the sound
decoder, the streaming-source duration, the font loader, texture creation
and float `log10`. -/
structure ScriptExt where
  fromFile : String → SoundData
  musicDuration : String → Nat
  fontLoads : String → Bool
  mkTexture : Nat → Option Nat
  log10 : ℚ → ℚ

/-- The host functions of the scripting bridge that touch the resource
tables. -/
inductive ScriptOp where
  | bindSound (name file : String)
  | bindMusic (name file : String)
  | playSound (name : String) (rpt : Int) (volume : ℚ)
  | playSoundForever (name : String) (volume : ℚ)
  | playMusic (name : String) (rpt : Int)
  | playMusicForever (name : String)
  | createTexture (imageId : Nat)
  | updateTextureImage (textureId imageId : Nat)
  | loadFont (file : String)

/-- Effect of one host-function call on the session's resource tables. -/
def step (ext : ScriptExt) (s : Session) : ScriptOp → Session
  | .bindSound n f => { s with sounds := bind_sound__name_file s.sounds n f }
  | .bindMusic n f => { s with music := bind_music__name_file s.music n f }
  | .playSound n r v =>
    { s with sounds := (play_sound__name_repeat_volume ext.fromFile ext.log10 s.sounds n r v).1 }
  | .playSoundForever n v =>
    { s with sounds := (play_sound_forever__name_volume ext.fromFile ext.log10 s.sounds n v).1 }
  | .playMusic n r =>
    { s with music := (play_music__name_repeat ext.musicDuration s.music n r).1 }
  | .playMusicForever n =>
    { s with music := (play_music_forever__name ext.musicDuration s.music n).1 }
  | .createTexture i => (create_texture ext.mkTexture s i).1
  | .updateTextureImage t i => (update__texture_image s t i).1
  | .loadFont f => (load_font ext.fontLoads s f).1

/-- A sequence table only ever grows at the end, so existing indices stay
valid and unchanged. -/
def appendOnly {α : Type} (l l' : List α) : Prop := ∃ t, l' = l ++ t

/-- The append-only reading of the spec for the name-keyed tables:
every existing entry survives with the same source file, only its cached
data slot may change. -/
def soundEntriesPreserved (before after : Sounds) : Prop :=
  ∀ k v, lookupKey before k = some v →
    ∃ d, lookupKey after k = some { file := v.file, data := d }

/-- The operation is a `bind_sound` on exactly this name. -/
def rebindsSoundName (op : ScriptOp) (k : String) : Prop :=
  ∃ f, op = ScriptOp.bindSound k f

/-- The operation is a `bind_music` on exactly this name. -/
def rebindsMusicName (op : ScriptOp) (k : String) : Prop :=
  ∃ f, op = ScriptOp.bindMusic k f

/-- Sound entries survive every operation with their file intact, except
that rebinding the same name replaces that name's entry. -/
def soundEntriesPreservedExcept (op : ScriptOp) (before after : Sounds) : Prop :=
  ∀ k v, lookupKey before k = some v →
    ∃ v', lookupKey after k = some v' ∧ (v'.file = v.file ∨ rebindsSoundName op k)

/-- Music entries survive every operation with their file intact, except
that rebinding the same name replaces that name's entry. -/
def musicEntriesPreservedExcept (op : ScriptOp) (before after : Music) : Prop :=
  ∀ k v, lookupKey before k = some v →
    ∃ v', lookupKey after k = some v' ∧ (v'.file = v.file ∨ rebindsMusicName op k)

/-- The ambient contexts installed by the scripting session `run`
(`src/piston_script.rs` lines 80-94), in installation order. -/
inductive Ambient where
  | window
  | event
  | glyphs
  | fontNames
  | images
  | imageNames
  | textureContext
  | textures
  | gl
  | events
  | audioManager
  | musicTrack
  | sounds
  | music
  deriving DecidableEq, Repr

/-- Outcome of one `run` call: its result and the orders in which ambient
guards were installed and torn down. -/
structure RunOutcome where
  result : Except Unit Unit
  installs : List Ambient
  teardowns : List Ambient
  deriving Repr

/-- Guard installation order of `run` (`src/piston_script.rs` lines
80-94). -/
def guardInstallOrder : List Ambient :=
  [Ambient.window, Ambient.event, Ambient.glyphs, Ambient.fontNames,
   Ambient.images, Ambient.imageNames, Ambient.textureContext,
   Ambient.textures, Ambient.gl, Ambient.events, Ambient.audioManager,
   Ambient.musicTrack, Ambient.sounds, Ambient.music]

/-- The explicit `drop` calls on the success path (`src/piston_script.rs`
lines 102-115), in program order. -/
def explicitDrops : List Ambient :=
  [Ambient.music, Ambient.sounds, Ambient.musicTrack, Ambient.audioManager,
   Ambient.events, Ambient.gl, Ambient.textures, Ambient.textureContext,
   Ambient.imageNames, Ambient.images, Ambient.fontNames, Ambient.glyphs,
   Ambient.event, Ambient.window]

/-- The drops performed when `f(...)?` propagates a script failure
(`src/piston_script.rs` line 100): Rust drops the in-scope guards in
reverse declaration order. -/
def scopeExitDrops : List Ambient :=
  [Ambient.music, Ambient.sounds, Ambient.musicTrack, Ambient.audioManager,
   Ambient.events, Ambient.gl, Ambient.textures, Ambient.textureContext,
   Ambient.imageNames, Ambient.images, Ambient.fontNames, Ambient.glyphs,
   Ambient.event, Ambient.window]

/-- `run` (`src/piston_script.rs` lines 40-118), guard lifecycle view.
When the module fails to load, `run` returns before any guard is
installed; when the script fails, the `?` operator unwinds the scope and
the guards drop in reverse declaration order; on success the explicit
`drop` calls run. -/
def run (moduleLoadFails scriptFails : Bool) : RunOutcome :=
  if moduleLoadFails then
    { result := Except.error (), installs := [], teardowns := [] }
  else if scriptFails then
    { result := Except.error (),
      installs := guardInstallOrder, teardowns := scopeExitDrops }
  else
    { result := Except.ok (),
      installs := guardInstallOrder, teardowns := explicitDrops }

/-- Sample wgpu window used by the witnesses: an 800 x 600 window whose
surface configuration still carries the initial 512 x 512 size and whose
surface is healthy. -/
def w0 : PistonWindow :=
  { drawWidth := 800, drawHeight := 600,
    surface_config := { width := 512, height := 512 },
    currentTexture := Except.ok (),
    rendererCalls := 0, gpuLog := [] }

/-- Sample wgpu window whose surface has been lost. -/
def wErr : PistonWindow := { w0 with currentTexture := Except.error SurfaceError.lost }

/-- Sample render event at the window's draw size. -/
def eRender : Event := Event.render { width := 800, height := 600 }

/-- Sample resize event matching the sample window's draw size. -/
def eResize : Event := Event.resize { drawWidth := 800, drawHeight := 600 }

/-- Sample gfx window used by the witnesses. -/
def g0 : GfxWindow :=
  { drawWidth := 800, drawHeight := 600, outputWidth := 800,
    outputHeight := 600, cleanups := 0 }

/-- Sample decoder: every file decodes to a sound of duration 2. -/
def fromFile0 : String → SoundData := fun _ => { duration := 2 }

/-- Sample `log10` collaborator: constantly zero (so `log10 1 = 0`). -/
def log10zero : ℚ → ℚ := fun _ => 0

/-- Sample sound entry with no cached data. -/
def entry0 : SoundEntry := { file := ("boom.wav"), data := none }

/-- Sample sound table binding one name. -/
def sounds0 : Sounds := [(("explosion"), entry0)]

/-- Sample external collaborators for the session-step witnesses. -/
def ext0 : ScriptExt :=
  { fromFile := fromFile0, musicDuration := fun _ => 5,
    fontLoads := fun _ => true, mkTexture := fun i => some i,
    log10 := log10zero }

/-- Sample session for the session-step witnesses. -/
def s0 : Session :=
  { images := [7], textures := [], glyphs := [], fontNames := [],
    sounds := sounds0, music := [(("theme"), { file := ("theme.ogg"), handle := none })] }

/-! ## Helper lemmas about the table primitives -/

theorem lookupKey_append_of_some {α : Type} {m : List (String × α)} {k : String}
    {v : α} (m' : List (String × α)) (h : lookupKey m k = some v) :
    lookupKey (m ++ m') k = some v := by
  induction m with
  | nil => simp [lookupKey] at h
  | cons p rest ih =>
    by_cases hk : k = p.1
    · simp [lookupKey, hk] at h ⊢
      exact h
    · simp [lookupKey, hk] at h ⊢
      exact ih h

theorem lookupKey_append_of_none {α : Type} {m : List (String × α)} {k : String}
    (m' : List (String × α)) (h : lookupKey m k = none) :
    lookupKey (m ++ m') k = lookupKey m' k := by
  induction m with
  | nil => rfl
  | cons p rest ih =>
    by_cases hk : k = p.1
    · simp [lookupKey, hk] at h
    · simp [lookupKey, hk] at h ⊢
      exact ih h

theorem lookupKey_overwrite {α : Type} (m : List (String × α)) (k k' : String)
    (v : α) :
    lookupKey (m.map fun p => (p.1, if p.1 = k then v else p.2)) k' =
      (lookupKey m k').map fun x => if k' = k then v else x := by
  induction m with
  | nil => rfl
  | cons p rest ih =>
    by_cases hk : k' = p.1
    · subst hk
      simp [lookupKey]
    · simp [lookupKey, hk, ih]

theorem lookupKey_setSoundData (m : Sounds) (n : String) (d : SoundData)
    (k : String) :
    lookupKey (setSoundData m n d) k =
      (lookupKey m k).map fun v => if k = n then { v with data := some d } else v := by
  unfold setSoundData
  induction m with
  | nil => rfl
  | cons p rest ih =>
    by_cases hk : k = p.1
    · subst hk
      simp [lookupKey]
    · simp [lookupKey, hk, ih]

theorem lookupKey_setMusicHandle (m : Music) (n : String) (h : StreamHandle)
    (k : String) :
    lookupKey (setMusicHandle m n h) k =
      (lookupKey m k).map fun v => if k = n then { v with handle := some h } else v := by
  unfold setMusicHandle
  induction m with
  | nil => rfl
  | cons p rest ih =>
    by_cases hk : k = p.1
    · subst hk
      simp [lookupKey]
    · simp [lookupKey, hk, ih]

theorem lookupKey_hashInsert_self {α : Type} (m : List (String × α)) (k : String)
    (v : α) : lookupKey (hashInsert m k v) k = some v := by
  unfold hashInsert
  by_cases h : (lookupKey m k).isSome
  · rw [if_pos h, lookupKey_overwrite]
    obtain ⟨w, hw⟩ := Option.isSome_iff_exists.mp h
    simp [hw]
  · rw [if_neg h, lookupKey_append_of_none _ (by simpa using h)]
    simp [lookupKey]

theorem lookupKey_hashInsert_ne {α : Type} (m : List (String × α)) (k k' : String)
    (v : α) (hk : k' ≠ k) :
    lookupKey (hashInsert m k v) k' = lookupKey m k' := by
  unfold hashInsert
  by_cases h : (lookupKey m k).isSome
  · rw [if_pos h, lookupKey_overwrite]
    cases hx : lookupKey m k' <;> simp [hk]
  · rw [if_neg h]
    cases hx : lookupKey m k' with
    | some w => exact lookupKey_append_of_some _ hx
    | none =>
      rw [lookupKey_append_of_none _ hx]
      simp [lookupKey, hk]

theorem scheduleRepeats_eq_range (vol : Decibels) (d : Nat) :
    ∀ count start : Nat,
      scheduleRepeats vol d count start =
        (List.range count).map fun k =>
          { startOffset := start + k * d, loopWhole := false, volume := vol } := by
  intro count
  induction count with
  | zero => intro start; rfl
  | succ c ih =>
    intro start
    rw [scheduleRepeats, ih (start + d), List.range_succ_eq_map, List.map_cons,
      List.map_map]
    simp only [List.cons.injEq]
    refine ⟨by simp, ?_⟩
    congr 1
    funext a
    simp only [Function.comp_apply, PlayCall.mk.injEq, Nat.succ_eq_add_one,
      eq_self_iff_true, and_true]
    ring

theorem play_sound_table_shape (fromFile : String → SoundData) (log10 : ℚ → ℚ)
    (m : Sounds) (name : String) (rpt : Int) (v : ℚ) :
    (play_sound__name_repeat_volume fromFile log10 m name rpt v).1 = m ∨
    ∃ d, (play_sound__name_repeat_volume fromFile log10 m name rpt v).1 =
      setSoundData m name d := by
  unfold play_sound__name_repeat_volume
  cases h : lookupKey m name with
  | none => exact Or.inl rfl
  | some entry =>
    by_cases h1 : rpt = -1
    · cases hd : entry.data with
      | some d => simp [h, h1, hd]
      | none => simp [h, h1, hd]
    · by_cases h0 : rpt = 0
      · simp [h, h1, h0]
      · cases hd : entry.data with
        | some d => simp [h, h1, h0, hd]
        | none => simp [h, h1, h0, hd]

theorem play_sound_forever_table_shape (fromFile : String → SoundData)
    (log10 : ℚ → ℚ) (m : Sounds) (name : String) (v : ℚ) :
    (play_sound_forever__name_volume fromFile log10 m name v).1 = m ∨
    ∃ d, (play_sound_forever__name_volume fromFile log10 m name v).1 =
      setSoundData m name d := by
  unfold play_sound_forever__name_volume
  cases h : lookupKey m name with
  | none => exact Or.inl rfl
  | some entry =>
    cases hd : entry.data with
    | some d => simp [h, hd]
    | none => simp [h, hd]

theorem play_music_table_shape (dur : String → Nat) (m : Music) (name : String)
    (rpt : Int) :
    (play_music__name_repeat dur m name rpt).1 = m ∨
    ∃ h, (play_music__name_repeat dur m name rpt).1 = setMusicHandle m name h := by
  unfold play_music__name_repeat
  cases h : lookupKey m name with
  | none => exact Or.inl rfl
  | some entry =>
    by_cases h1 : rpt = -1
    · cases hd : entry.handle with
      | some s => simp [h, h1, hd]
      | none => simp [h, h1, hd]
    · by_cases h0 : rpt = 0
      · simp [h, h1, h0]
      · simp [h, h1, h0]

theorem play_music_forever_table_shape (dur : String → Nat) (m : Music)
    (name : String) :
    (play_music_forever__name dur m name).1 = m ∨
    ∃ h, (play_music_forever__name dur m name).1 = setMusicHandle m name h := by
  unfold play_music_forever__name
  cases h : lookupKey m name with
  | none => exact Or.inl rfl
  | some entry =>
    cases hd : entry.handle with
    | some s => simp [h, hd]
    | none => simp [h, hd]

theorem sound_files_preserved_of_shape {m after : Sounds} {name : String}
    (hshape : after = m ∨ ∃ d, after = setSoundData m name d) :
    ∀ k v, lookupKey m k = some v →
      ∃ v', lookupKey after k = some v' ∧ v'.file = v.file := by
  intro k v hk
  rcases hshape with h | ⟨d, h⟩
  · exact ⟨v, h ▸ hk, rfl⟩
  · subst h
    rw [lookupKey_setSoundData, hk]
    by_cases hkn : k = name
    · refine ⟨{ v with data := some d }, ?_, rfl⟩
      simp [hkn]
    · refine ⟨v, ?_, rfl⟩
      simp [hkn]

theorem music_files_preserved_of_shape {m after : Music} {name : String}
    (hshape : after = m ∨ ∃ h, after = setMusicHandle m name h) :
    ∀ k v, lookupKey m k = some v →
      ∃ v', lookupKey after k = some v' ∧ v'.file = v.file := by
  intro k v hk
  rcases hshape with h | ⟨s, h⟩
  · exact ⟨v, h ▸ hk, rfl⟩
  · subst h
    rw [lookupKey_setMusicHandle, hk]
    by_cases hkn : k = name
    · refine ⟨{ v with handle := some s }, ?_, rfl⟩
      simp [hkn]
    · refine ⟨v, ?_, rfl⟩
      simp [hkn]

/-! ## Claims about the window coordinator -/

/-- Claim C1: for every event that is not a render tick, `draw_2d` and
`draw_3d` return none, never invoke the callback (the result and state do
not depend on it), and perform no GPU work: the window state — surface,
GPU log and renderer call count included — is returned unchanged. -/
theorem draw_non_render_noop {U V : Type} (w : PistonWindow) (e : Event)
    (f : RenderArgs → U) (g : PistonWindow → V × PistonWindow)
    (h : e.render_args = none) :
    w.draw_2d e f = (DrawResult.noRender, w) ∧ w.draw_3d e g = (none, w) := by
  constructor <;> simp [PistonWindow.draw_2d, PistonWindow.draw_3d, h]

/-- Witness for C1 at the update event and the sample window. -/
theorem draw_non_render_noop_witness :
    Event.render_args Event.update = none ∧
    (PistonWindow.draw_2d w0 Event.update (fun _ => (0 : Nat)) =
        (DrawResult.noRender, w0) ∧
      PistonWindow.draw_3d w0 Event.update (fun w => ((0 : Nat), w)) = (none, w0)) :=
  ⟨rfl, draw_non_render_noop w0 Event.update (fun _ => (0 : Nat))
    (fun w => ((0 : Nat), w)) rfl⟩

/-- Claim C2: when `next` returns a resize event whose reported draw size
is the window's draw size, the surface configuration returned along with
the event has already been reconfigured — its width and height equal the
window's draw size, and the `configure` call is in the GPU log — before
the event reaches the caller, so a draw for that event observes
dimensions equal to `draw_size()`. -/
theorem resize_reconfigures_before_return (w : PistonWindow) (e : Event)
    (dw dh : Nat)
    (hr : e.resize_args = some { drawWidth := dw, drawHeight := dh })
    (hw : dw = w.drawWidth) (hh : dh = w.drawHeight) :
    (w.next (some e)).1 = some e ∧
    ((w.next (some e)).2).surface_config.width = ((w.next (some e)).2).drawWidth ∧
    ((w.next (some e)).2).surface_config.height = ((w.next (some e)).2).drawHeight ∧
    ((w.next (some e)).2).gpuLog = w.gpuLog ++ [GpuOp.configure dw dh] := by
  subst hw hh
  simp [PistonWindow.next, PistonWindow.event, hr]

/-- Witness for C2 at the sample resize event and window. -/
theorem resize_reconfigures_before_return_witness :
    Event.resize_args eResize = some { drawWidth := 800, drawHeight := 600 } ∧
    ((w0.next (some eResize)).1 = some eResize ∧
      ((w0.next (some eResize)).2).surface_config.width =
        ((w0.next (some eResize)).2).drawWidth ∧
      ((w0.next (some eResize)).2).surface_config.height =
        ((w0.next (some eResize)).2).drawHeight ∧
      ((w0.next (some eResize)).2).gpuLog = w0.gpuLog ++ [GpuOp.configure 800 600]) :=
  ⟨rfl, resize_reconfigures_before_return w0 eResize 800 600 rfl rfl rfl⟩

/-- Counterexample to claim C3 as stated: at a render tick with a lost
surface, `draw_2d` does not return the failure as a value — it panics
(the `unwrap` on `get_current_texture`), modelled by the `panicked`
outcome, leaving the window untouched. -/
theorem draw_2d_surface_error_cex :
    (PistonWindow.draw_2d wErr eRender (fun _ => (0 : Nat))).1 =
      DrawResult.panicked ∧
    (PistonWindow.draw_2d wErr eRender (fun _ => (0 : Nat))).2 = wErr :=
  ⟨rfl, rfl⟩

/-- Claim C3 amended: for every render-tick event, if the surface cannot
produce a current texture, `draw_2d` panics (it does not return the
failure as a value), never retries internally, and performs no further
GPU work — the window state is unchanged. -/
theorem draw_2d_surface_error_panics {U : Type} (w : PistonWindow) (e : Event)
    (f : RenderArgs → U) (args : RenderArgs) (err : SurfaceError)
    (hr : e.render_args = some args) (hs : w.currentTexture = Except.error err) :
    w.draw_2d e f = (DrawResult.panicked, w) := by
  simp [PistonWindow.draw_2d, hr, hs]

/-- Witness for the amended C3 at the sample lost-surface window. -/
theorem draw_2d_surface_error_panics_witness :
    Event.render_args eRender = some { width := 800, height := 600 } ∧
    wErr.currentTexture = Except.error SurfaceError.lost ∧
    PistonWindow.draw_2d wErr eRender (fun _ => (0 : Nat)) =
      (DrawResult.panicked, wErr) :=
  ⟨rfl, rfl, draw_2d_surface_error_panics wErr eRender (fun _ => (0 : Nat))
    { width := 800, height := 600 } SurfaceError.lost rfl rfl⟩

/-- Claim C4: for every render-tick event with a healthy surface,
`draw_2d` acquires the surface view, invokes the render function, submits
the command buffer, then presents — appending exactly
`[acquire, renderCall, submit, present]` to the GPU log, with submit
strictly before present — and returns the render function's result
wrapped in `ok`. -/
theorem draw_2d_render_sequence {U : Type} (w : PistonWindow) (e : Event)
    (f : RenderArgs → U) (args : RenderArgs)
    (hr : e.render_args = some args) (hs : w.currentTexture = Except.ok ()) :
    w.draw_2d e f =
      (DrawResult.ok (f args),
        { w with
            rendererCalls := w.rendererCalls + 1,
            gpuLog := w.gpuLog ++ renderOps }) ∧
    List.Sublist [GpuOp.submit, GpuOp.present] renderOps := by
  refine ⟨?_, by decide⟩
  simp [PistonWindow.draw_2d, hr, hs]

/-- Witness for C4 at the sample render event and healthy window. -/
theorem draw_2d_render_sequence_witness :
    Event.render_args eRender = some { width := 800, height := 600 } ∧
    w0.currentTexture = Except.ok () ∧
    (PistonWindow.draw_2d w0 eRender (fun _ => (0 : Nat)) =
        (DrawResult.ok 0,
          { w0 with
              rendererCalls := w0.rendererCalls + 1,
              gpuLog := w0.gpuLog ++ renderOps }) ∧
      List.Sublist [GpuOp.submit, GpuOp.present] renderOps) :=
  ⟨rfl, rfl, draw_2d_render_sequence w0 eRender (fun _ => (0 : Nat))
    { width := 800, height := 600 } rfl rfl⟩

/-- Claim C5: for every event returned by the gfx coordinator's `next`,
the device cleanup has run (exactly once) by the time the event is
returned when the event is an after-render event, and the cleanup count
is untouched for every other event kind. -/
theorem next_after_render_cleanup (w : GfxWindow) (e : Event) :
    (w.next (some e)).1 = some e ∧
    ((w.next (some e)).2).cleanups =
      (if (e.after_render_args).isSome then w.cleanups + 1 else w.cleanups) := by
  refine ⟨rfl, ?_⟩
  cases e <;>
    simp [GfxWindow.next, GfxWindow.event, Event.after_render_args] <;>
    split <;> rfl

/-! ## Claims about the scripting bridge -/

theorem cons_scheduleRepeats_eq_range (vol : Decibels) (dur t : Nat) :
    ({ startOffset := 0, loopWhole := false, volume := vol } : PlayCall) ::
        scheduleRepeats vol dur t dur =
      (List.range (t + 1)).map fun k =>
        { startOffset := k * dur, loopWhole := false, volume := vol } := by
  rw [scheduleRepeats_eq_range, List.range_succ_eq_map, List.map_cons, List.map_map]
  simp only [List.cons.injEq]
  refine ⟨by simp, ?_⟩
  congr 1
  funext a
  simp only [Function.comp_apply, PlayCall.mk.injEq, Nat.succ_eq_add_one,
    eq_self_iff_true, and_true]
  ring

/-- Claim C6: for a bound sound name, `play_sound` with repeat 0 issues no
play call; with repeat -1 it issues exactly one play call with the loop
region set to the whole sound; and with an integer repeat n at least 1 it
issues exactly n play calls at start offsets 0, d, 2d, ..., (n-1)d, where
d is the sound's duration. -/
theorem play_sound_repeat_count_semantics (fromFile : String → SoundData)
    (log10 : ℚ → ℚ) (m : Sounds) (name : String) (entry : SoundEntry)
    (v : ℚ) (n : Int) (hname : lookupKey m name = some entry) (hn : 1 ≤ n) :
    (play_sound__name_repeat_volume fromFile log10 m name 0 v).2 = [] ∧
    (play_sound__name_repeat_volume fromFile log10 m name (-1) v).2 =
      [{ startOffset := 0, loopWhole := true,
         volume := amplitude_to_decibels log10 v }] ∧
    (play_sound__name_repeat_volume fromFile log10 m name n v).2 =
      (List.range n.toNat).map fun k =>
        { startOffset := k * (soundDataOf fromFile entry).duration,
          loopWhole := false, volume := amplitude_to_decibels log10 v } := by
  refine ⟨?_, ?_, ?_⟩
  · simp [play_sound__name_repeat_volume, hname]
  · cases hd : entry.data with
    | some d => simp [play_sound__name_repeat_volume, hname, hd]
    | none => simp [play_sound__name_repeat_volume, hname, hd]
  · have hne1 : n ≠ -1 := by omega
    have hne0 : n ≠ 0 := by omega
    have htn : n.toNat - 1 + 1 = n.toNat := by omega
    cases hd : entry.data with
    | some d =>
      simp only [play_sound__name_repeat_volume, hname, hd, if_neg hne1,
        if_pos hne0, soundDataOf]
      rw [cons_scheduleRepeats_eq_range, htn]
    | none =>
      simp only [play_sound__name_repeat_volume, hname, hd, if_neg hne1,
        if_pos hne0, soundDataOf]
      rw [cons_scheduleRepeats_eq_range, htn]

/-- Witness for C6 at a one-entry sound table, repeat 3, duration 2. -/
theorem play_sound_repeat_count_semantics_witness :
    lookupKey sounds0 ("explosion") = some entry0 ∧
    (1 : Int) ≤ 3 ∧
    ((play_sound__name_repeat_volume fromFile0 log10zero sounds0 ("explosion") 0 1).2 = [] ∧
      (play_sound__name_repeat_volume fromFile0 log10zero sounds0 ("explosion") (-1) 1).2 =
        [{ startOffset := 0, loopWhole := true,
           volume := amplitude_to_decibels log10zero 1 }] ∧
      (play_sound__name_repeat_volume fromFile0 log10zero sounds0 ("explosion") 3 1).2 =
        (List.range (Int.toNat 3)).map fun k =>
          { startOffset := k * (soundDataOf fromFile0 entry0).duration,
            loopWhole := false, volume := amplitude_to_decibels log10zero 1 }) :=
  ⟨rfl, by decide,
    play_sound_repeat_count_semantics fromFile0 log10zero sounds0 ("explosion")
      entry0 1 3 rfl (by decide)⟩

/-- Claim C7: every execution of the scripting-session `run` — module
load failure, script failure and success alike — tears the ambient
context guards down in exactly the reverse of their installation order,
and failures propagate as the error result. -/
theorem run_teardown_reverse_order (moduleLoadFails scriptFails : Bool) :
    (run moduleLoadFails scriptFails).teardowns =
      (run moduleLoadFails scriptFails).installs.reverse ∧
    (run moduleLoadFails scriptFails).result =
      (if moduleLoadFails || scriptFails then Except.error () else Except.ok ()) := by
  cases moduleLoadFails <;> cases scriptFails <;> exact ⟨by decide, rfl⟩

/-- Claim C9: the amplitude-to-decibel conversion yields `SILENCE` for
every amplitude at or below zero, exactly 0 dB at amplitude 1 (given that
`log10 1 = 0`), and `20 * log10 a` dB for every positive amplitude. -/
theorem amplitude_to_decibels_spec (log10 : ℚ → ℚ) (a c : ℚ)
    (hlog : log10 1 = 0) (ha : a ≤ 0) (hc : 0 < c) :
    amplitude_to_decibels log10 a = Decibels.silence ∧
    amplitude_to_decibels log10 1 = Decibels.db 0 ∧
    amplitude_to_decibels log10 c = Decibels.db (20 * log10 c) := by
  refine ⟨?_, ?_, ?_⟩
  · simp [amplitude_to_decibels, ha]
  · rw [amplitude_to_decibels, if_neg (by norm_num), hlog, mul_zero]
  · rw [amplitude_to_decibels, if_neg (not_le.mpr hc)]

/-- Witness for C9 at amplitudes -1, 1 and 2 with the constant-zero
`log10`. -/
theorem amplitude_to_decibels_spec_witness :
    log10zero 1 = 0 ∧ (-1 : ℚ) ≤ 0 ∧ (0 : ℚ) < 2 ∧
    (amplitude_to_decibels log10zero (-1) = Decibels.silence ∧
      amplitude_to_decibels log10zero 1 = Decibels.db 0 ∧
      amplitude_to_decibels log10zero 2 = Decibels.db (20 * log10zero 2)) :=
  ⟨rfl, by norm_num, by norm_num,
    amplitude_to_decibels_spec log10zero (-1) 2 rfl (by norm_num) (by norm_num)⟩

/-- Claim C10: for a name never registered via `bind_sound`/`bind_music`,
each of `play_sound`, `play_sound_forever`, `play_music` and
`play_music_forever` returns normally as a silent no-op: no play call is
issued and the tables are unchanged. -/
theorem unbound_name_silent_noop (fromFile : String → SoundData)
    (log10 : ℚ → ℚ) (dur : String → Nat) (sounds : Sounds) (music : Music)
    (name : String) (rpt : Int) (v : ℚ)
    (hs : lookupKey sounds name = none) (hm : lookupKey music name = none) :
    play_sound__name_repeat_volume fromFile log10 sounds name rpt v = (sounds, []) ∧
    play_sound_forever__name_volume fromFile log10 sounds name v = (sounds, []) ∧
    play_music__name_repeat dur music name rpt = (music, []) ∧
    play_music_forever__name dur music name = (music, []) := by
  refine ⟨?_, ?_, ?_, ?_⟩ <;>
    simp [play_sound__name_repeat_volume, play_sound_forever__name_volume,
      play_music__name_repeat, play_music_forever__name, hs, hm]

/-- Witness for C10 at empty tables and an unbound name. -/
theorem unbound_name_silent_noop_witness :
    lookupKey ([] : Sounds) ("missing") = none ∧
    lookupKey ([] : Music) ("missing") = none ∧
    (play_sound__name_repeat_volume fromFile0 log10zero [] ("missing") 2 1 = ([], []) ∧
      play_sound_forever__name_volume fromFile0 log10zero [] ("missing") 1 = ([], []) ∧
      play_music__name_repeat (fun _ => 5) [] ("missing") 2 = ([], []) ∧
      play_music_forever__name (fun _ => 5) [] ("missing") = ([], [])) :=
  ⟨rfl, rfl,
    unbound_name_silent_noop fromFile0 log10zero (fun _ => 5) [] []
      ("missing") 2 1 rfl rfl⟩

theorem appendOnly_refl {α : Type} (l : List α) : appendOnly l l := ⟨[], by simp⟩

theorem soundPreservedExcept_of_eq {op : ScriptOp} {before after : Sounds}
    (h : after = before) : soundEntriesPreservedExcept op before after := by
  subst h
  intro k v hk
  exact ⟨v, hk, Or.inl rfl⟩

theorem musicPreservedExcept_of_eq {op : ScriptOp} {before after : Music}
    (h : after = before) : musicEntriesPreservedExcept op before after := by
  subst h
  intro k v hk
  exact ⟨v, hk, Or.inl rfl⟩

theorem soundPreservedExcept_of_shape {op : ScriptOp} {m after : Sounds}
    {name : String} (hshape : after = m ∨ ∃ d, after = setSoundData m name d) :
    soundEntriesPreservedExcept op m after := by
  intro k v hk
  obtain ⟨v', hv', hfile⟩ := sound_files_preserved_of_shape hshape k v hk
  exact ⟨v', hv', Or.inl hfile⟩

theorem musicPreservedExcept_of_shape {op : ScriptOp} {m after : Music}
    {name : String} (hshape : after = m ∨ ∃ h, after = setMusicHandle m name h) :
    musicEntriesPreservedExcept op m after := by
  intro k v hk
  obtain ⟨v', hv', hfile⟩ := music_files_preserved_of_shape hshape k v hk
  exact ⟨v', hv', Or.inl hfile⟩

theorem create_texture_fields (mk : Nat → Option Nat) (s : Session) (i : Nat) :
    appendOnly s.textures (create_texture mk s i).1.textures ∧
    (create_texture mk s i).1.images = s.images ∧
    (create_texture mk s i).1.glyphs = s.glyphs ∧
    (create_texture mk s i).1.fontNames = s.fontNames ∧
    (create_texture mk s i).1.sounds = s.sounds ∧
    (create_texture mk s i).1.music = s.music := by
  unfold create_texture
  split
  · exact ⟨appendOnly_refl _, rfl, rfl, rfl, rfl, rfl⟩
  · split
    · exact ⟨appendOnly_refl _, rfl, rfl, rfl, rfl, rfl⟩
    · exact ⟨⟨_, rfl⟩, rfl, rfl, rfl, rfl, rfl⟩

theorem update_texture_image_id (s : Session) (t i : Nat) :
    (update__texture_image s t i).1 = s := by
  unfold update__texture_image
  split
  · rfl
  · split
    · rfl
    · rfl

theorem load_font_fields (fl : String → Bool) (s : Session) (file : String) :
    appendOnly s.glyphs (load_font fl s file).1.glyphs ∧
    appendOnly s.fontNames (load_font fl s file).1.fontNames ∧
    (load_font fl s file).1.images = s.images ∧
    (load_font fl s file).1.textures = s.textures ∧
    (load_font fl s file).1.sounds = s.sounds ∧
    (load_font fl s file).1.music = s.music := by
  unfold load_font
  by_cases h : fl file = true
  · rw [if_pos h]
    exact ⟨⟨[file], rfl⟩, ⟨[file], rfl⟩, rfl, rfl, rfl, rfl⟩
  · rw [if_neg h]
    exact ⟨appendOnly_refl _, appendOnly_refl _, rfl, rfl, rfl, rfl⟩

/-- Counterexample to claim C8 as stated: rebinding an already-bound
sound name replaces that name's entry wholesale — the stored source file
changes from the old one to the new one — so the "entries are never
removed or replaced, only a cached handle may change" invariant fails on
`bind_sound`. -/
theorem bind_sound_rebind_cex :
    ¬ soundEntriesPreserved [(("boom"), { file := ("f1"), data := none })]
        (bind_sound__name_file [(("boom"), { file := ("f1"), data := none })]
          ("boom") ("f2")) := by
  intro h
  obtain ⟨d, hd⟩ := h ("boom") { file := ("f1"), data := none } (by simp [lookupKey])
  unfold bind_sound__name_file at hd
  rw [lookupKey_hashInsert_self] at hd
  simp at hd

/-- Claim C8 amended: every scripting-bridge operation keeps the
sequence tables (images, textures, glyph caches, font names) append-only
with stable indices, and keeps every existing sound/music entry present
with its source file intact — the only element-level mutation being a
sound/music entry's cached handle — except that `bind_sound`/`bind_music`
on an already-bound name replaces that name's entry. -/
theorem tables_append_only (ext : ScriptExt) (s : Session) (op : ScriptOp) :
    appendOnly s.images (step ext s op).images ∧
    appendOnly s.textures (step ext s op).textures ∧
    appendOnly s.glyphs (step ext s op).glyphs ∧
    appendOnly s.fontNames (step ext s op).fontNames ∧
    soundEntriesPreservedExcept op s.sounds (step ext s op).sounds ∧
    musicEntriesPreservedExcept op s.music (step ext s op).music := by
  cases op with
  | bindSound n f =>
    refine ⟨appendOnly_refl _, appendOnly_refl _, appendOnly_refl _,
      appendOnly_refl _, ?_, musicPreservedExcept_of_eq rfl⟩
    intro k v hk
    by_cases hkn : k = n
    · subst hkn
      refine ⟨{ file := f, data := none }, ?_, Or.inr ⟨f, rfl⟩⟩
      show lookupKey (bind_sound__name_file s.sounds k f) k = _
      unfold bind_sound__name_file
      exact lookupKey_hashInsert_self _ _ _
    · refine ⟨v, ?_, Or.inl rfl⟩
      show lookupKey (bind_sound__name_file s.sounds n f) k = some v
      unfold bind_sound__name_file
      rw [lookupKey_hashInsert_ne _ _ _ _ hkn]
      exact hk
  | bindMusic n f =>
    refine ⟨appendOnly_refl _, appendOnly_refl _, appendOnly_refl _,
      appendOnly_refl _, soundPreservedExcept_of_eq rfl, ?_⟩
    intro k v hk
    by_cases hkn : k = n
    · subst hkn
      refine ⟨{ file := f, handle := none }, ?_, Or.inr ⟨f, rfl⟩⟩
      show lookupKey (bind_music__name_file s.music k f) k = _
      unfold bind_music__name_file
      exact lookupKey_hashInsert_self _ _ _
    · refine ⟨v, ?_, Or.inl rfl⟩
      show lookupKey (bind_music__name_file s.music n f) k = some v
      unfold bind_music__name_file
      rw [lookupKey_hashInsert_ne _ _ _ _ hkn]
      exact hk
  | playSound n r vol =>
    exact ⟨appendOnly_refl _, appendOnly_refl _, appendOnly_refl _,
      appendOnly_refl _,
      soundPreservedExcept_of_shape
        (play_sound_table_shape ext.fromFile ext.log10 s.sounds n r vol),
      musicPreservedExcept_of_eq rfl⟩
  | playSoundForever n vol =>
    exact ⟨appendOnly_refl _, appendOnly_refl _, appendOnly_refl _,
      appendOnly_refl _,
      soundPreservedExcept_of_shape
        (play_sound_forever_table_shape ext.fromFile ext.log10 s.sounds n vol),
      musicPreservedExcept_of_eq rfl⟩
  | playMusic n r =>
    exact ⟨appendOnly_refl _, appendOnly_refl _, appendOnly_refl _,
      appendOnly_refl _, soundPreservedExcept_of_eq rfl,
      musicPreservedExcept_of_shape
        (play_music_table_shape ext.musicDuration s.music n r)⟩
  | playMusicForever n =>
    exact ⟨appendOnly_refl _, appendOnly_refl _, appendOnly_refl _,
      appendOnly_refl _, soundPreservedExcept_of_eq rfl,
      musicPreservedExcept_of_shape
        (play_music_forever_table_shape ext.musicDuration s.music n)⟩
  | createTexture i =>
    obtain ⟨ht, hi, hg, hf, hs, hm⟩ := create_texture_fields ext.mkTexture s i
    refine ⟨?_, ht, ?_, ?_, soundPreservedExcept_of_eq hs,
      musicPreservedExcept_of_eq hm⟩
    · show appendOnly s.images (create_texture ext.mkTexture s i).1.images
      rw [hi]
      exact appendOnly_refl _
    · show appendOnly s.glyphs (create_texture ext.mkTexture s i).1.glyphs
      rw [hg]
      exact appendOnly_refl _
    · show appendOnly s.fontNames (create_texture ext.mkTexture s i).1.fontNames
      rw [hf]
      exact appendOnly_refl _
  | updateTextureImage t i =>
    have h := update_texture_image_id s t i
    refine ⟨?_, ?_, ?_, ?_,
      soundPreservedExcept_of_eq (congrArg Session.sounds h),
      musicPreservedExcept_of_eq (congrArg Session.music h)⟩
    · show appendOnly s.images (update__texture_image s t i).1.images
      rw [h]
      exact appendOnly_refl _
    · show appendOnly s.textures (update__texture_image s t i).1.textures
      rw [h]
      exact appendOnly_refl _
    · show appendOnly s.glyphs (update__texture_image s t i).1.glyphs
      rw [h]
      exact appendOnly_refl _
    · show appendOnly s.fontNames (update__texture_image s t i).1.fontNames
      rw [h]
      exact appendOnly_refl _
  | loadFont file =>
    obtain ⟨hg, hf, hi, ht, hs, hm⟩ := load_font_fields ext.fontLoads s file
    refine ⟨?_, ?_, hg, hf, soundPreservedExcept_of_eq hs,
      musicPreservedExcept_of_eq hm⟩
    · show appendOnly s.images (load_font ext.fontLoads s file).1.images
      rw [hi]
      exact appendOnly_refl _
    · show appendOnly s.textures (load_font ext.fontLoads s file).1.textures
      rw [ht]
      exact appendOnly_refl _
